import Mathlib

/-
Verification of the singleton state-manager example
(src/creational/singleton/example.ts).

Shallow embedding: the mutable static field `StateManager.instance` is
modelled as an `Option StateManager` value threaded explicitly through
every operation; `none` means the process-wide instance has not been
created yet.  Instance methods become pure functions on the
`StateManager` record; a method that mutates the instance returns the
updated record, and the caller stores it back into the process-wide
slot (the instance is the only aliased object in the program, so this
write-back is exactly the observable effect of mutating through any
reference to the singleton).  `console.log` calls have no effect on
program state and are dropped.
-/

/-- The `ConnectionStatus` union type: one of the three string literals
`"connected" | "connecting" | "disconnected"` from the source. -/
inductive ConnectionStatus where
  | connected
  | connecting
  | disconnected
deriving DecidableEq, Repr

/-- The `Message` interface: optional `id`, required `content`,
`sender` and numeric `timestamp`. -/
structure Message where
  id : Option String := none
  content : String
  sender : String
  timestamp : Int
deriving DecidableEq, Repr

/-- The `Attachment` interface: optional `id`, required `url`, `type`,
numeric `size`, and an optional browser `File` handle.  The program
never inspects the `File` contents, so the handle is modelled as an
opaque unit value. -/
structure Attachment where
  id : Option String := none
  url : String
  type : String
  size : Int
  file : Option Unit := none
deriving DecidableEq, Repr

/-- The mutable per-instance fields of class `StateManager`:
`connectionStatus`, `messages`, `attachments`. -/
structure StateManager where
  connectionStatus : ConnectionStatus
  messages : List Message
  attachments : List Attachment
deriving DecidableEq, Repr

/-- `new StateManager()`: every field takes its declared initializer
(`"disconnected"`, `[]`, `[]`).  The constructor takes no inputs. -/
def StateManager.new : StateManager :=
  { connectionStatus := ConnectionStatus.disconnected
    messages := []
    attachments := [] }

/-- `static getInstance()`: if the static slot is empty, construct the
instance and store it; return the stored instance together with the
updated static slot. -/
def StateManager.getInstance : Option StateManager → StateManager × Option StateManager
  | none => (StateManager.new, some StateManager.new)
  | some s => (s, some s)

/-- `setConnectionStatus(status)`: unconditionally overwrite the status
field; no validation of the transition. -/
def StateManager.setConnectionStatus (s : StateManager) (status : ConnectionStatus) :
    StateManager :=
  { s with connectionStatus := status }

/-- `getConnectionStatus()`: return the current status. -/
def StateManager.getConnectionStatus (s : StateManager) : ConnectionStatus :=
  s.connectionStatus

/-- `pushMessage(message)`: `this.messages = [...this.messages, message]`,
an append at the end (the `console.log` is dropped). -/
def StateManager.pushMessage (s : StateManager) (message : Message) : StateManager :=
  { s with messages := s.messages ++ [message] }

/-- `getMessages()`: return the message sequence. -/
def StateManager.getMessages (s : StateManager) : List Message :=
  s.messages

/-- `pushAttachment(attachment)`: `this.attachments.push(attachment)`,
an in-place append at the end. -/
def StateManager.pushAttachment (s : StateManager) (attachment : Attachment) : StateManager :=
  { s with attachments := s.attachments ++ [attachment] }

/-- `getAttachments()`: return the attachment sequence. -/
def StateManager.getAttachments (s : StateManager) : List Attachment :=
  s.attachments

/-- Class `SessionHandler` holds no fields; its constructor only logs.
We keep it as an (empty) structure so that distinct instances can be
quantified over. -/
structure SessionHandler where
deriving DecidableEq, Repr

/-- `new SessionHandler()` (the constructor only logs). -/
def SessionHandler.new : SessionHandler := {}

/-- `SessionHandler.connect()`:
`StateManager.getInstance().setConnectionStatus("connecting")`.
The mutation goes through the stored singleton, so the static slot now
holds the updated instance. -/
def SessionHandler.connect (_self : SessionHandler) (g : Option StateManager) :
    Option StateManager :=
  some (StateManager.setConnectionStatus (StateManager.getInstance g).fst
    ConnectionStatus.connecting)

/-- `SessionHandler.disconnect()`:
`StateManager.getInstance().setConnectionStatus("disconnected")`. -/
def SessionHandler.disconnect (_self : SessionHandler) (g : Option StateManager) :
    Option StateManager :=
  some (StateManager.setConnectionStatus (StateManager.getInstance g).fst
    ConnectionStatus.disconnected)

/-- `SessionHandler.sendMessage(message)`:
`StateManager.getInstance().pushMessage(message)`. -/
def SessionHandler.sendMessage (_self : SessionHandler) (g : Option StateManager)
    (message : Message) : Option StateManager :=
  some (StateManager.pushMessage (StateManager.getInstance g).fst message)

/-- `SessionHandler.sendAttachment(attachment)`:
`StateManager.getInstance().pushAttachment(attachment)`. -/
def SessionHandler.sendAttachment (_self : SessionHandler) (g : Option StateManager)
    (attachment : Attachment) : Option StateManager :=
  some (StateManager.pushAttachment (StateManager.getInstance g).fst attachment)

/-- `SessionHandler.getMessages()`:
`return StateManager.getInstance().getMessages()` (the `getInstance`
call itself may create and store the instance). -/
def SessionHandler.getMessages (_self : SessionHandler) (g : Option StateManager) :
    List Message × Option StateManager :=
  ((StateManager.getInstance g).fst.getMessages, (StateManager.getInstance g).snd)

/-- `SessionHandler.getAttachments()`:
`return StateManager.getInstance().getAttachments()`. -/
def SessionHandler.getAttachments (_self : SessionHandler) (g : Option StateManager) :
    List Attachment × Option StateManager :=
  ((StateManager.getInstance g).fst.getAttachments, (StateManager.getInstance g).snd)

/-- Class `KKTLiveChatSDK`: its field `sessionHandler` is declared
non-optional, but every method accesses it with optional chaining
(`this.sessionHandler?.…`), so the field is embedded as an `Option` to
make the guard expressible. -/
structure KKTLiveChatSDK where
  sessionHandler : Option SessionHandler
deriving DecidableEq, Repr

/-- `new KKTLiveChatSDK()`: logs, then unconditionally assigns
`this.sessionHandler = new SessionHandler()`. -/
def KKTLiveChatSDK.new : KKTLiveChatSDK :=
  { sessionHandler := some SessionHandler.new }

/-- `KKTLiveChatSDK.connect()`: `this.sessionHandler?.connect()`. -/
def KKTLiveChatSDK.connect (sdk : KKTLiveChatSDK) (g : Option StateManager) :
    Option StateManager :=
  match sdk.sessionHandler with
  | none => g
  | some h => h.connect g

/-- `KKTLiveChatSDK.disconnect()`: `this.sessionHandler?.disconnect()`. -/
def KKTLiveChatSDK.disconnect (sdk : KKTLiveChatSDK) (g : Option StateManager) :
    Option StateManager :=
  match sdk.sessionHandler with
  | none => g
  | some h => h.disconnect g

/-- `KKTLiveChatSDK.sendMessage(message)`:
`this.sessionHandler?.sendMessage(message)`. -/
def KKTLiveChatSDK.sendMessage (sdk : KKTLiveChatSDK) (g : Option StateManager)
    (message : Message) : Option StateManager :=
  match sdk.sessionHandler with
  | none => g
  | some h => h.sendMessage g message

/-- `KKTLiveChatSDK.sendAttachment(attachment)`:
`this.sessionHandler?.sendAttachment(attachment)`. -/
def KKTLiveChatSDK.sendAttachment (sdk : KKTLiveChatSDK) (g : Option StateManager)
    (attachment : Attachment) : Option StateManager :=
  match sdk.sessionHandler with
  | none => g
  | some h => h.sendAttachment g attachment

/-- `KKTLiveChatSDK.getMessages()`:
`return this.sessionHandler?.getMessages()`; the optional chain yields
an absent result when the delegate is absent. -/
def KKTLiveChatSDK.getMessages (sdk : KKTLiveChatSDK) (g : Option StateManager) :
    Option (List Message) × Option StateManager :=
  match sdk.sessionHandler with
  | none => (none, g)
  | some h => (some (h.getMessages g).fst, (h.getMessages g).snd)

/-- `KKTLiveChatSDK.getAttachments()`:
`return this.sessionHandler?.getAttachments()`. -/
def KKTLiveChatSDK.getAttachments (sdk : KKTLiveChatSDK) (g : Option StateManager) :
    Option (List Attachment) × Option StateManager :=
  match sdk.sessionHandler with
  | none => (none, g)
  | some h => (some (h.getAttachments g).fst, (h.getAttachments g).snd)

/-- The status an observer reads by calling
`StateManager.getInstance().getConnectionStatus()` against a given
static slot. -/
def observedStatus (g : Option StateManager) : ConnectionStatus :=
  (StateManager.getInstance g).fst.getConnectionStatus

/-- Sequentially apply `pushMessage` for each message of a list, in
order, to a `StateManager` instance. -/
def pushAll (s : StateManager) : List Message → StateManager
  | [] => s
  | m :: ms => pushAll (s.pushMessage m) ms

/-- The operations of the public facade `KKTLiveChatSDK`. -/
inductive FacadeOp where
  | connect
  | disconnect
  | sendMessage (message : Message)
  | sendAttachment (attachment : Attachment)
  | getMessages
  | getAttachments
deriving DecidableEq, Repr

/-- Effect of one public facade operation on the process-wide static
slot (the getter operations still run `getInstance`, which may create
the instance). -/
def KKTLiveChatSDK.applyOp (sdk : KKTLiveChatSDK) (g : Option StateManager) :
    FacadeOp → Option StateManager
  | FacadeOp.connect => sdk.connect g
  | FacadeOp.disconnect => sdk.disconnect g
  | FacadeOp.sendMessage m => sdk.sendMessage g m
  | FacadeOp.sendAttachment a => sdk.sendAttachment g a
  | FacadeOp.getMessages => (sdk.getMessages g).snd
  | FacadeOp.getAttachments => (sdk.getAttachments g).snd

/-- Run a sequence of public facade operations in order. -/
def KKTLiveChatSDK.runOps (sdk : KKTLiveChatSDK) (g : Option StateManager) :
    List FacadeOp → Option StateManager
  | [] => g
  | op :: ops => sdk.runOps (sdk.applyOp g op) ops

lemma pushAll_messages (s : StateManager) (ms : List Message) :
    (pushAll s ms).messages = s.messages ++ ms := by
  induction ms generalizing s with
  | nil => simp [pushAll]
  | cons m ms ih =>
      simp [pushAll, ih, StateManager.pushMessage]

lemma pushAll_attachments (s : StateManager) (ms : List Message) :
    (pushAll s ms).attachments = s.attachments := by
  induction ms generalizing s with
  | nil => rfl
  | cons m ms ih => simp [pushAll, ih, StateManager.pushMessage]

/-- Claim C1: every call to `StateManager.getInstance()` returns the one
stored instance (the first call constructs and stores it), a second
call returns exactly what the first stored, and a mutation made through
the instance returned by one call is observable through the instance
returned by any later call. -/
theorem getInstance_singleton_identity (g : Option StateManager) :
    (StateManager.getInstance g).snd = some (StateManager.getInstance g).fst ∧
    StateManager.getInstance (StateManager.getInstance g).snd =
      ((StateManager.getInstance g).fst, (StateManager.getInstance g).snd) ∧
    (∀ m : Message,
      (StateManager.getInstance
          (some ((StateManager.getInstance g).fst.pushMessage m))).fst.getMessages =
        (StateManager.getInstance g).fst.getMessages ++ [m]) := by
  cases g <;>
    simp [StateManager.getInstance, StateManager.pushMessage, StateManager.getMessages]

/-- Claim C2: pushing any list of messages with pairwise distinct
content onto the freshly created shared instance, in order, makes
`getMessages()` return exactly that list in push order, each message
unchanged. -/
theorem pushMessage_append_order (ms : List Message)
    (hdist : ms.Pairwise (fun a b => a.content ≠ b.content)) :
    (pushAll (StateManager.getInstance none).fst ms).getMessages = ms := by
  simp [StateManager.getInstance, StateManager.getMessages, pushAll_messages,
    StateManager.new]

/-- Witness for C2 at a concrete two-message push sequence. -/
theorem pushMessage_append_order_witness :
    (pushAll (StateManager.getInstance none).fst
        [{ content := "a", sender := "s", timestamp := 1 },
         { content := "b", sender := "s", timestamp := 2 }]).getMessages =
      [{ content := "a", sender := "s", timestamp := 1 },
       { content := "b", sender := "s", timestamp := 2 }] :=
  pushMessage_append_order
    [{ content := "a", sender := "s", timestamp := 1 },
     { content := "b", sender := "s", timestamp := 2 }]
    (by simp)

/-- Claim C3: `SessionHandler.connect()` is exactly one
`setConnectionStatus` call on the singleton and leaves the observed
status `"connecting"` (not `"connected"`); `disconnect()` is exactly
one such call and leaves `"disconnected"`. -/
theorem sessionHandler_connect_disconnect (self : SessionHandler)
    (g : Option StateManager) :
    self.connect g =
      some ((StateManager.getInstance g).fst.setConnectionStatus
        ConnectionStatus.connecting) ∧
    self.disconnect g =
      some ((StateManager.getInstance g).fst.setConnectionStatus
        ConnectionStatus.disconnected) ∧
    observedStatus (self.connect g) = ConnectionStatus.connecting ∧
    observedStatus (self.connect g) ≠ ConnectionStatus.connected ∧
    observedStatus (self.disconnect g) = ConnectionStatus.disconnected := by
  refine ⟨rfl, rfl, ?_, ?_, ?_⟩ <;>
    cases g <;>
      simp [SessionHandler.connect, SessionHandler.disconnect, observedStatus,
        StateManager.getInstance, StateManager.setConnectionStatus,
        StateManager.getConnectionStatus]

/-- Claim C4: for any two `SessionHandler` instances `s1` and `s2`, a
message sent via `s1.sendMessage` is contained in (in fact is the last
element of) the list that `s2.getMessages()` returns afterwards: the
facades share one state, not per-instance state. -/
theorem sessionHandler_cross_facade_visibility (s1 s2 : SessionHandler)
    (g : Option StateManager) (m : Message) :
    m ∈ (s2.getMessages (s1.sendMessage g m)).fst ∧
    (s2.getMessages (s1.sendMessage g m)).fst =
      (StateManager.getInstance g).fst.getMessages ++ [m] := by
  cases g <;>
    simp [SessionHandler.sendMessage, SessionHandler.getMessages,
      StateManager.getInstance, StateManager.pushMessage, StateManager.getMessages]

/-- Claim C5: `setConnectionStatus(A)` followed by
`setConnectionStatus(B)` leaves `getConnectionStatus()` equal to `B`
for every pair of statuses, including `A = B`; the setter is a total
function, so no transition is rejected or validated. -/
theorem setConnectionStatus_overwrite (s : StateManager)
    (a b : ConnectionStatus) :
    ((s.setConnectionStatus a).setConnectionStatus b).getConnectionStatus = b :=
  rfl

/-- Claim C8: `pushAttachment` changes neither the message sequence nor
the connection status, and `pushMessage` changes neither the attachment
sequence nor the connection status: the two append channels and the
status scalar are mutually independent. -/
theorem push_channels_independent (s : StateManager) (m : Message)
    (a : Attachment) :
    (s.pushAttachment a).getMessages = s.getMessages ∧
    (s.pushAttachment a).getConnectionStatus = s.getConnectionStatus ∧
    (s.pushMessage m).getAttachments = s.getAttachments ∧
    (s.pushMessage m).getConnectionStatus = s.getConnectionStatus :=
  ⟨rfl, rfl, rfl, rfl⟩

/-- Claim C10: the freshly constructed `StateManager` instance (also
the one the first `getInstance()` call creates) has status
`"disconnected"` and empty message and attachment sequences; the
constructor takes no inputs and is a total function, so construction
cannot fail. -/
theorem stateManager_initial_state :
    StateManager.new.getConnectionStatus = ConnectionStatus.disconnected ∧
    StateManager.new.getMessages = [] ∧
    StateManager.new.getAttachments = [] ∧
    (StateManager.getInstance none).fst = StateManager.new :=
  ⟨rfl, rfl, rfl, rfl⟩

/-- The first demo message of the usage snippet at the bottom of the
source file, with its `Date.now()` timestamp left abstract. -/
def demoMessage1 (t1 : Int) : Message :=
  { content := "Hello, how are you?", sender := "John Doe", timestamp := t1 }

/-- The second demo message of the usage snippet. -/
def demoMessage2 (t2 : Int) : Message :=
  { content := "I need your help to fix my computer", sender := "John Doe", timestamp := t2 }

/-- Claim C6: from the initial process state, constructing the SDK,
calling `connect()`, then sending the two demo messages leaves the
observed connection status `"connecting"` and makes `getMessages()`
return exactly those two messages, in order, fields intact. -/
theorem sdk_end_to_end_scenario (t1 t2 : Int) :
    observedStatus
      (KKTLiveChatSDK.new.sendMessage
        (KKTLiveChatSDK.new.sendMessage (KKTLiveChatSDK.new.connect none)
          (demoMessage1 t1))
        (demoMessage2 t2)) = ConnectionStatus.connecting ∧
    (KKTLiveChatSDK.new.getMessages
      (KKTLiveChatSDK.new.sendMessage
        (KKTLiveChatSDK.new.sendMessage (KKTLiveChatSDK.new.connect none)
          (demoMessage1 t1))
        (demoMessage2 t2))).fst = some [demoMessage1 t1, demoMessage2 t2] :=
  ⟨rfl, rfl⟩

/-- Claim C9: every `KKTLiveChatSDK` operation is a total function (no
failure, validation, or exception exists in the model), and on the SDK
produced by the constructor the optional-chaining guard never takes its
absent branch: the owned handler is present, the getters always return
a present list, and each operation delegates to the owned
`SessionHandler`. -/
theorem sdk_guard_never_triggers (g : Option StateManager) :
    KKTLiveChatSDK.new.sessionHandler.isSome = true ∧
    ((KKTLiveChatSDK.new.getMessages g).fst).isSome = true ∧
    ((KKTLiveChatSDK.new.getAttachments g).fst).isSome = true ∧
    KKTLiveChatSDK.new.connect g = SessionHandler.new.connect g ∧
    KKTLiveChatSDK.new.disconnect g = SessionHandler.new.disconnect g ∧
    (∀ m : Message,
      KKTLiveChatSDK.new.sendMessage g m = SessionHandler.new.sendMessage g m) ∧
    (∀ a : Attachment,
      KKTLiveChatSDK.new.sendAttachment g a = SessionHandler.new.sendAttachment g a) :=
  ⟨rfl, rfl, rfl, rfl, rfl, fun _ => rfl, fun _ => rfl⟩

lemma observedStatus_applyOp_ne_connected (sdk : KKTLiveChatSDK)
    (g : Option StateManager) (op : FacadeOp)
    (h : observedStatus g ≠ ConnectionStatus.connected) :
    observedStatus (sdk.applyOp g op) ≠ ConnectionStatus.connected := by
  obtain ⟨sh⟩ := sdk
  cases op <;> cases sh <;> cases g <;>
    simp_all [KKTLiveChatSDK.applyOp, KKTLiveChatSDK.connect,
      KKTLiveChatSDK.disconnect, KKTLiveChatSDK.sendMessage,
      KKTLiveChatSDK.sendAttachment, KKTLiveChatSDK.getMessages,
      KKTLiveChatSDK.getAttachments, SessionHandler.connect,
      SessionHandler.disconnect, SessionHandler.sendMessage,
      SessionHandler.sendAttachment, SessionHandler.getMessages,
      SessionHandler.getAttachments, observedStatus, StateManager.getInstance,
      StateManager.setConnectionStatus, StateManager.getConnectionStatus,
      StateManager.pushMessage, StateManager.pushAttachment, StateManager.new]

/-- Claim C7: in every process state reachable from the initial (empty)
state by any sequence of public facade operations, the observed
connection status is never `"connected"`: no operation in the source
ever sets that value. -/
theorem facade_status_never_connected (sdk : KKTLiveChatSDK)
    (ops : List FacadeOp) :
    observedStatus (sdk.runOps none ops) ≠ ConnectionStatus.connected := by
  have key : ∀ (l : List FacadeOp) (g : Option StateManager),
      observedStatus g ≠ ConnectionStatus.connected →
      observedStatus (sdk.runOps g l) ≠ ConnectionStatus.connected := by
    intro l
    induction l with
    | nil => intro g h; simpa [KKTLiveChatSDK.runOps] using h
    | cons op l ih =>
        intro g h
        simpa [KKTLiveChatSDK.runOps] using
          ih _ (observedStatus_applyOp_ne_connected sdk g op h)
  exact key ops none (by decide)
